import Mathlib

/-!
Shallow embedding of the panda3d_toolbox package (application.py, bootstrap.py,
logging.py, runtime.py) and proofs about its documented behaviour.

Python strings are modelled either as Lean String values (where only
concatenation and comparison matter) or as List Char (where the code slices
and splits character by character).  Side effects on the host engine (virtual
file system mounts, notifier output, stream writes) are modelled as explicit
event values returned by the embedded functions.  Fallible Python code
(assert statements, raised exceptions) is embedded with Except.
-/

namespace PandaToolbox

/-- Model of a Python object reference that may be the None singleton. -/
inductive PyVal (α : Type) where
  | none
  | val (a : α)
deriving DecidableEq

/-- Model of a Python error raised by the embedded code. -/
inductive PyError where
  | assertionError
  | attributeError (message : List Char)
deriving DecidableEq

/-! ## runtime.py: build flags -/

/-- Ambient interpreter state read by the runtime module: the value of
builtins.__dev__, whether sys has the ps1 and ps2 attributes, and the result
of importlib.util.find_spec on the runtime module (an optional module spec
carrying an optional origin string). -/
structure RuntimeEnv where
  dev__ : Bool
  has_ps1 : Bool
  has_ps2 : Bool
  find_spec : Option (Option String)

/-- Embedding of runtime.is_frozen: the find_spec result is not None and its
origin is not None. -/
def is_frozen (e : RuntimeEnv) : Bool :=
  match e.find_spec with
  | Option.some (Option.some _) => true
  | _ => false

/-- Embedding of runtime.is_interactive: sys has both ps1 and ps2. -/
def is_interactive (e : RuntimeEnv) : Bool :=
  e.has_ps1 && e.has_ps2

/-- Embedding of runtime.is_developer_build. -/
def is_developer_build (e : RuntimeEnv) : Bool :=
  (e.dev__ || is_interactive e) && !is_frozen e

/-- Embedding of runtime.is_production_build. -/
def is_production_build (e : RuntimeEnv) : Bool :=
  !is_developer_build e

/-- Embedding of runtime.is_panda3d_build. -/
def is_panda3d_build (e : RuntimeEnv) : Bool :=
  is_frozen e

/-- Embedding of runtime.is_built_executable. -/
def is_built_executable (e : RuntimeEnv) : Bool :=
  is_panda3d_build e

/-! ## application.py: execute -/

/-- Model of a Python exception instance raised inside ShowBase.run. -/
structure PyExn where
  message : String
deriving DecidableEq

/-- Observable state of an Application during execute: its exit_code attribute
and the sequence of messages written through its notifier (the Panda3D
notifier is modelled as an event log of the strings handed to it). -/
structure ExecState where
  exit_code : Int
  notify_log : List String
deriving DecidableEq

/-- Embedding of Application.execute.  The behaviour of ShowBase.run is a
parameter: it either returns normally or raises an exception.  The traceback
module is abstracted as a function from the exception to its formatted
traceback string. -/
def execute (format_exc : PyExn → String) (run_result : Except PyExn Unit)
    (s : ExecState) : Except PyExn (Int × ExecState) :=
  match run_result with
  | Except.ok _ => Except.ok (s.exit_code, s)
  | Except.error e =>
    let s1 : ExecState :=
      { s with notify_log :=
          s.notify_log ++
            ["An error occurred during execution: " ++ e.message,
             format_exc e] }
    let s2 : ExecState := { s1 with exit_code := 1 }
    Except.ok (s2.exit_code, s2)

/-! ## application.py: set_exit_callback -/

/-- Model of a Python object passed as a callback: all the assert statements
inspect is whether the Python callable builtin accepts it. -/
structure PyObject where
  callable : Bool
deriving DecidableEq

/-- Result of Python callable() on a possibly-None reference. -/
def callable_check (func : PyVal PyObject) : Bool :=
  match func with
  | PyVal.none => false
  | PyVal.val o => o.callable

/-- Observable ShowBase state touched by set_exit_callback: the exitFunc
attribute plus every other attribute, abstracted into one field so that a
theorem can say the rest of the state is unchanged. -/
structure ShowBaseState (ρ : Type) where
  exitFunc : PyVal PyObject
  rest : ρ
deriving DecidableEq

/-- Embedding of Application.set_exit_callback: assert func != None, assert
callable(func), then store func in exitFunc. -/
def set_exit_callback {ρ : Type} (func : PyVal PyObject) (s : ShowBaseState ρ) :
    Except PyError (ShowBaseState ρ) :=
  if func = PyVal.none then Except.error PyError.assertionError
  else if !callable_check func then Except.error PyError.assertionError
  else Except.ok { s with exitFunc := func }

/-! ## logging.py: notifier logging helpers -/

/-- One message written to a Panda3D notifier category, recording the
category name, the level method that was invoked and the message argument. -/
structure LogEvent where
  category : String
  level : String
  message : String
deriving DecidableEq

/-- Embedding of logging.get_notify_category: assert name != None and
name != the empty string, then obtain the category of that name from
directNotify (a category is identified here by its name). -/
def get_notify_category (name : String) : Except PyError String :=
  if name = "" then Except.error PyError.assertionError
  else Except.ok name

/-- Embedding of logging.log.  Whether a category object has a given level
method (the hasattr check) is a parameter has_attr taking the category name
and the method name.  The call getattr(category, type)(message) is modelled
as the emitted LogEvent. -/
def log (has_attr : String → String → Bool) (message : String) (name : String)
    (type : String) : Except PyError LogEvent :=
  match get_notify_category name with
  | Except.error e => Except.error e
  | Except.ok category =>
    if has_attr category type then Except.ok ⟨category, type, message⟩
    else Except.error PyError.assertionError

/-- Embedding of logging.log_error; the source body is log(name, message,
the error level), with name defaulting to the string global. -/
def log_error (has_attr : String → String → Bool) (message : String)
    (name : String) : Except PyError LogEvent :=
  log has_attr name message "error"

/-- Embedding of logging.log_warn. -/
def log_warn (has_attr : String → String → Bool) (message : String)
    (name : String) : Except PyError LogEvent :=
  log has_attr name message "warn"

/-- Embedding of logging.log_info. -/
def log_info (has_attr : String → String → Bool) (message : String)
    (name : String) : Except PyError LogEvent :=
  log has_attr name message "info"

/-- Embedding of logging.log_debug. -/
def log_debug (has_attr : String → String → Bool) (message : String)
    (name : String) : Except PyError LogEvent :=
  log has_attr name message "debug"

/-! ## prc module (model)

Modelled from the spec: the module panda3d_toolbox.prc is imported by
application.py and logging.py but its source file is not part of the
repository snapshot.  Per the spec glossary, PRC is the Panda3D runtime
configuration key/value system; the getters used here read a configured
string for a key, falling back to a supplied default, or read a configured
list of strings for a key. -/

/-- Modelled from the spec: the PRC configuration tables behind the missing
panda3d_toolbox.prc module, as key/value lookups for string keys and list
keys. -/
structure PrcConfig where
  strings : String → Option String
  lists : String → List String

/-- Modelled from the spec: prc.get_prc_string returns the configured value
for the key, or the default when the key is not configured. -/
def get_prc_string (prc : PrcConfig) (key dflt : String) : String :=
  (prc.strings key).getD dflt

/-- Modelled from the spec: prc.get_prc_list returns the configured list of
strings for the key, empty when the key is not configured. -/
def get_prc_list (prc : PrcConfig) (key : String) : List String :=
  prc.lists key

/-! ## application.py: configure_virtual_file_system -/

/-- One call made into the vendored panda3d_vfs module, with the argument
strings as passed at the call site. -/
inductive VfsCall where
  | mount_directory (arg1 arg2 : String)
  | mount_multifile (arg1 arg2 : String)
  | switch_file_functions_to_vfs
  | switch_io_functions_to_vfs
deriving DecidableEq

/-- Embedding of Application.configure_virtual_file_system as the ordered
trace of vfs calls it performs. -/
def configure_virtual_file_system (e : RuntimeEnv) (prc : PrcConfig) :
    List VfsCall :=
  (if !is_built_executable e then
    [VfsCall.mount_directory "." "assets"]
  else
    (get_prc_list prc "vfs-multifile").map
      (fun multifile => VfsCall.mount_multifile "." multifile))
  ++ [VfsCall.switch_file_functions_to_vfs, VfsCall.switch_io_functions_to_vfs]

/-! ## logging.py: configure_log_file and PythonLogHandler -/

/-- Model of the struct_time value produced by time.localtime. -/
structure Tm where
  tm_year : Nat
  tm_mon : Nat
  tm_mday : Nat
  tm_hour : Nat
  tm_min : Nat
  tm_sec : Nat
deriving DecidableEq

/-- Zero-padded two digit decimal field, as produced by strftime. -/
def pad2 (n : Nat) : String :=
  if n < 10 then "0" ++ toString n else toString n

/-- Zero-padded four digit decimal field, as produced by strftime for the
year directive. -/
def pad4 (n : Nat) : String :=
  if n < 10 then "000" ++ toString n
  else if n < 100 then "00" ++ toString n
  else if n < 1000 then "0" ++ toString n
  else toString n

/-- Embedding of time.strftime applied to the fixed format string used by
configure_log_file: year-month-day_hour-minute-second, every field
zero-padded. -/
def strftime_timestamp (tm : Tm) : String :=
  pad4 tm.tm_year ++ "-" ++ pad2 tm.tm_mon ++ "-" ++ pad2 tm.tm_mday ++ "_"
    ++ pad2 tm.tm_hour ++ "-" ++ pad2 tm.tm_min ++ "-" ++ pad2 tm.tm_sec

/-- Model of Python str.lower, mapping the character-level lowering over the
string data. -/
def py_lower (s : String) : String :=
  String.mk (s.data.map Char.toLower)

/-- Model of Python str.startswith on the string data. -/
def str_starts_with (s p : String) : Bool :=
  p.data.isPrefixOf s.data

/-- Model of Python str.endswith on the string data. -/
def str_ends_with (s p : String) : Bool :=
  p.data.isSuffixOf s.data

/-- Embedding of logging.get_log_directory: the app-log-directory PRC string,
defaulting to the dot, os.sep, logs concatenation. -/
def get_log_directory (sep : String) (prc : PrcConfig) : String :=
  get_prc_string prc "app-log-directory" ("." ++ sep ++ "logs")

/-- Embedding of os.path.join on two components for a platform whose
separator is sep, following posixpath.join: an absolute second component
replaces the first, otherwise the components are joined with a single
separator. -/
def os_path_join (sep a b : String) : String :=
  if str_starts_with b sep then b
  else if a = "" || str_ends_with a sep then a ++ b
  else a ++ sep ++ b

/-- Model of a Python stream object: the original process stdout, the
original process stderr, or a file stream opened with a given path and
mode. -/
inductive PyStream where
  | stdout_stream
  | stderr_stream
  | file_stream (path : String) (mode : String)
deriving DecidableEq

/-- Embedding of logging.PythonLogHandler: it holds the original stream and
the log file stream. -/
structure PythonLogHandler where
  original : PyStream
  log_stream : PyStream
deriving DecidableEq

/-- One primitive operation performed on a stream. -/
inductive StreamAction where
  | write_to (s : PyStream) (message : String)
  | flush (s : PyStream)
deriving DecidableEq

/-- Embedding of PythonLogHandler.write as the ordered trace of stream
operations it performs: write and flush the log stream, then write and flush
the original stream. -/
def handler_write (h : PythonLogHandler) (message : String) :
    List StreamAction :=
  [StreamAction.write_to h.log_stream message,
   StreamAction.flush h.log_stream,
   StreamAction.write_to h.original message,
   StreamAction.flush h.original]

/-- Embedding of PythonLogHandler.flush as the ordered trace of stream
operations it performs. -/
def handler_flush (h : PythonLogHandler) : List StreamAction :=
  [StreamAction.flush h.original, StreamAction.flush h.log_stream]

/-- Ambient state read by configure_log_file: the PRC configuration, the
platform separator os.sep, runtime.executable_name, the current local time
and the current sys.stdout and sys.stderr streams. -/
structure LogWorld where
  prc : PrcConfig
  sep : String
  executable_name : String
  local_time : Tm
  sys_stdout : PyStream
  sys_stderr : PyStream

/-- Observable outcome of configure_log_file: the path and mode of the log
file stream it opens, and the handler objects installed as the new
sys.stdout and sys.stderr. -/
structure LogConfigResult where
  log_file_path : String
  log_stream : PyStream
  new_stdout : PythonLogHandler
  new_stderr : PythonLogHandler
deriving DecidableEq

/-- Embedding of logging.configure_log_file.  The log file name is the
lower-cased executable name, an underscore, the strftime timestamp, a dot and
the app-log-ext PRC string; the file at the joined path is opened in append
mode; sys.stdout and sys.stderr are replaced by PythonLogHandler objects
wrapping the previous streams around the one opened log stream.  The
MultiplexStream and Notify plumbing and the header prints write to the same
stream and are not part of the observable result modelled here. -/
def configure_log_file (w : LogWorld) : LogConfigResult :=
  let log_stem := py_lower w.executable_name
  let log_suffix := strftime_timestamp w.local_time
  let log_ext := get_prc_string w.prc "app-log-ext" "txt"
  let log_filename := log_stem ++ "_" ++ log_suffix ++ "." ++ log_ext
  let log_file_path := os_path_join w.sep (get_log_directory w.sep w.prc) log_filename
  let log_stream := PyStream.file_stream log_file_path "a"
  { log_file_path := log_file_path
    log_stream := log_stream
    new_stdout := ⟨w.sys_stdout, log_stream⟩
    new_stderr := ⟨w.sys_stderr, log_stream⟩ }

/-! ## bootstrap.py: entry constructors

Here Python strings are modelled as List Char, because the code splits them
on the dot character and rejoins the pieces. -/

/-- Helper for the Python str.split model: splits the character list at every
occurrence of sep, returning the first piece and the list of the remaining
pieces. -/
def splitAux (sep : Char) : List Char → List Char × List (List Char)
  | [] => ([], [])
  | c :: cs =>
    let r := splitAux sep cs
    if c = sep then ([], r.1 :: r.2) else (c :: r.1, r.2)

/-- Model of Python str.split with a single-character separator: the list of
pieces, always nonempty. -/
def splitOnSep (sep : Char) (l : List Char) : List (List Char) :=
  (splitAux sep l).1 :: (splitAux sep l).2

/-- Model of Python str.join with a single-character separator. -/
def joinSep (sep : Char) : List (List Char) → List Char
  | [] => []
  | [x] => x
  | x :: y :: ys => x ++ sep :: joinSep sep (y :: ys)

/-- Model of the Python negative index expression taking the last element of
a list; the default is never reached because split always returns a nonempty
list of pieces. -/
def py_last {β : Type} (d : β) : List β → β
  | [] => d
  | [a] => a
  | _ :: b :: t => py_last d (b :: t)

/-- Embedding of bootstrap.create_class_entry: split the object path on dots
and return the last piece, the full path and the meta value. -/
def create_class_entry {μ : Type} (object_path : List Char) (meta : μ) :
    List Char × List Char × μ :=
  let parts := splitOnSep '.' object_path
  (py_last [] parts, object_path, meta)

/-- Embedding of bootstrap.create_singleton_entry: split the object path on
dots and return the dot-rejoined pieces before the last one, the last piece
and the meta value. -/
def create_singleton_entry {μ : Type} (object_path : List Char) (meta : μ) :
    List Char × List Char × μ :=
  let parts := splitOnSep '.' object_path
  let class_name := py_last [] parts
  let path := joinSep '.' parts.dropLast
  (path, class_name, meta)

/-! ## runtime.py: module variable accessors and the getattr hook -/

/-- State of the runtime module object: for each attribute name, either
undefined, or defined with a possibly-None Python value. -/
def ModuleState (α : Type) : Type := List Char → Option (PyVal α)

/-- Embedding of the runtime module function checking a variable: the name
must be defined on the module and its value must not be None.  The source
name carries two leading underscores. -/
def has_variable {α : Type} (s : ModuleState α) (variable_name : List Char) :
    Bool :=
  match s variable_name with
  | Option.none => false
  | Option.some PyVal.none => false
  | Option.some (PyVal.val _) => true

/-- Embedding of the runtime module function reading a variable: None when
has_variable is false, the stored attribute otherwise. -/
def get_variable {α : Type} (s : ModuleState α) (variable_name : List Char) :
    PyVal α :=
  if has_variable s variable_name then (s variable_name).getD PyVal.none
  else PyVal.none

/-- Embedding of the runtime module function writing a variable via setattr
on the module. -/
def set_variable {α : Type} (s : ModuleState α) (variable_name : List Char)
    (value : PyVal α) : ModuleState α :=
  fun k => if k = variable_name then Option.some value else s k

/-- Result of the runtime module getattr hook: one of the three generated
accessor closures, or an attribute found on the builtins module. -/
inductive RtAttr (α : Type) where
  | has_method (variable_name : List Char)
  | get_method (variable_name : List Char)
  | set_method (variable_name : List Char)
  | builtin_attr (x : PyVal α)
deriving DecidableEq

/-- Python truthiness of a possibly-None value, with the truthiness of
non-None objects supplied as a parameter. -/
def py_truthy {α : Type} (truthy : α → Bool) (v : PyVal α) : Bool :=
  match v with
  | PyVal.none => false
  | PyVal.val a => truthy a

/-- Truthiness of a getattr hook result: the generated lambda closures are
truthy; a builtins attribute has its own truthiness. -/
def rt_attr_truthy {α : Type} (truthy : α → Bool) (r : RtAttr α) : Bool :=
  match r with
  | RtAttr.builtin_attr x => py_truthy truthy x
  | _ => true

/-- The has_ prefix characters tested by the getattr hook. -/
def has_key_chars : List Char := ['h', 'a', 's', '_']

/-- The get_ prefix characters tested by the getattr hook. -/
def get_key_chars : List Char := ['g', 'e', 't', '_']

/-- The set_ prefix characters tested by the getattr hook. -/
def set_key_chars : List Char := ['s', 'e', 't', '_']

/-- Embedding of the runtime module getattr hook.  The builtins module is a
parameter mapping attribute names to values; truthy gives the truthiness of
non-None builtin values.  The hook picks the accessor kind from the key
prefix, strips the first four characters when the key is longer than four,
falls back to builtins, and raises AttributeError when the result is falsy
or absent. -/
def runtime_getattr {α : Type} (builtins : List Char → Option (PyVal α))
    (truthy : α → Bool) (key : List Char) : Except PyError (RtAttr α) :=
  let variable_name := if 4 < key.length then key.drop 4 else key
  let result : Option (RtAttr α) :=
    if has_key_chars.isPrefixOf key then
      Option.some (RtAttr.has_method variable_name)
    else if get_key_chars.isPrefixOf key then
      Option.some (RtAttr.get_method variable_name)
    else if set_key_chars.isPrefixOf key then
      Option.some (RtAttr.set_method variable_name)
    else
      (builtins key).map RtAttr.builtin_attr
  match result with
  | Option.some r =>
    if rt_attr_truthy truthy r then Except.ok r
    else
      Except.error (PyError.attributeError
        (String.toList "runtime module has no attribute: " ++ key))
  | Option.none =>
    Except.error (PyError.attributeError
      (String.toList "runtime module has no attribute: " ++ key))

/-! ## Helper lemmas about the string split and join models -/

theorem splitAux_cons_self (sep : Char) (cs : List Char) :
    splitAux sep (sep :: cs) =
      ([], (splitAux sep cs).1 :: (splitAux sep cs).2) := by
  simp [splitAux]

theorem splitAux_cons_ne (sep c : Char) (cs : List Char) (h : ¬ c = sep) :
    splitAux sep (c :: cs) =
      (c :: (splitAux sep cs).1, (splitAux sep cs).2) := by
  simp [splitAux, h]

theorem joinSep_cons_cons (sep c : Char) (x : List Char)
    (xs : List (List Char)) :
    joinSep sep ((c :: x) :: xs) = c :: joinSep sep (x :: xs) := by
  cases xs <;> rfl

theorem joinSep_splitAux (sep : Char) :
    ∀ l : List Char,
      joinSep sep ((splitAux sep l).1 :: (splitAux sep l).2) = l := by
  intro l
  induction l with
  | nil => rfl
  | cons c cs ih =>
    by_cases hc : c = sep
    · rw [hc, splitAux_cons_self]
      show [] ++ sep :: joinSep sep ((splitAux sep cs).1 :: (splitAux sep cs).2)
        = sep :: cs
      rw [List.nil_append, ih]
    · rw [splitAux_cons_ne sep c cs hc, joinSep_cons_cons, ih]

theorem joinSep_splitOnSep (sep : Char) (l : List Char) :
    joinSep sep (splitOnSep sep l) = l :=
  joinSep_splitAux sep l

theorem sep_not_mem_splitAux (sep : Char) :
    ∀ l : List Char,
      sep ∉ (splitAux sep l).1 ∧ ∀ x ∈ (splitAux sep l).2, sep ∉ x := by
  intro l
  induction l with
  | nil =>
    exact ⟨List.not_mem_nil sep, fun x hx => absurd hx (List.not_mem_nil x)⟩
  | cons c cs ih =>
    by_cases hc : c = sep
    · rw [hc, splitAux_cons_self]
      refine ⟨List.not_mem_nil sep, ?_⟩
      intro x hx
      rcases List.mem_cons.mp hx with h1 | h2
      · subst h1; exact ih.1
      · exact ih.2 x h2
    · rw [splitAux_cons_ne sep c cs hc]
      refine ⟨?_, ih.2⟩
      intro hmem
      rcases List.mem_cons.mp hmem with h1 | h2
      · exact hc h1.symm
      · exact ih.1 h2

theorem sep_not_mem_of_mem_splitOnSep (sep : Char) (l : List Char)
    (x : List Char) (hx : x ∈ splitOnSep sep l) : sep ∉ x := by
  have h := sep_not_mem_splitAux sep l
  rcases List.mem_cons.mp hx with h1 | h2
  · subst h1; exact h.1
  · exact h.2 x h2

theorem splitAux_snd_ne_nil (sep : Char) :
    ∀ l : List Char, sep ∈ l → (splitAux sep l).2 ≠ [] := by
  intro l
  induction l with
  | nil => intro h; exact absurd h (List.not_mem_nil sep)
  | cons c cs ih =>
    intro hmem
    by_cases hc : c = sep
    · rw [hc, splitAux_cons_self]
      exact List.cons_ne_nil _ _
    · rw [splitAux_cons_ne sep c cs hc]
      apply ih
      rcases List.mem_cons.mp hmem with h1 | h2
      · exact absurd h1.symm hc
      · exact h2

theorem joinSep_append_singleton (sep : Char) :
    ∀ (xs : List (List Char)) (y : List Char), xs ≠ [] →
      joinSep sep (xs ++ [y]) = joinSep sep xs ++ sep :: y := by
  intro xs
  induction xs with
  | nil => intro y h; exact absurd rfl h
  | cons x xs ih =>
    intro y _
    cases xs with
    | nil => rfl
    | cons x2 xs2 =>
      show joinSep sep (x :: ((x2 :: xs2) ++ [y]))
        = (x ++ sep :: joinSep sep (x2 :: xs2)) ++ sep :: y
      have h1 : joinSep sep (x :: ((x2 :: xs2) ++ [y]))
          = x ++ sep :: joinSep sep ((x2 :: xs2) ++ [y]) := rfl
      rw [h1, ih y (List.cons_ne_nil x2 xs2), List.append_assoc]
      rfl

theorem py_last_append_singleton {β : Type} (d y : β) :
    ∀ xs : List β, py_last d (xs ++ [y]) = y := by
  intro xs
  induction xs with
  | nil => rfl
  | cons a xs ih =>
    cases xs with
    | nil => rfl
    | cons b t => exact ih

theorem py_last_mem {β : Type} (d : β) :
    ∀ l : List β, l ≠ [] → py_last d l ∈ l := by
  intro l
  induction l with
  | nil => intro h; exact absurd rfl h
  | cons a l ih =>
    intro _
    cases l with
    | nil => exact List.mem_singleton.mpr rfl
    | cons b t =>
      exact List.mem_cons_of_mem a (ih (List.cons_ne_nil b t))

theorem dropLast_append_py_last {β : Type} (d : β) :
    ∀ l : List β, l ≠ [] → l.dropLast ++ [py_last d l] = l := by
  intro l
  induction l with
  | nil => intro h; exact absurd rfl h
  | cons a l ih =>
    intro _
    cases l with
    | nil => rfl
    | cons b t =>
      show a :: ((b :: t).dropLast ++ [py_last d (b :: t)]) = a :: b :: t
      rw [ih (List.cons_ne_nil b t)]

theorem dropLast_cons_ne_nil {β : Type} (r : β) (rs : List β) (h : rs ≠ []) :
    (r :: rs).dropLast ≠ [] := by
  cases rs with
  | nil => exact absurd rfl h
  | cons b t => exact List.cons_ne_nil _ _

/-! ## Helper lemmas about the prefix tests in the getattr hook -/

theorem isPrefixOf_cons_cons (a b : Char) (as bs : List Char) :
    (a :: as).isPrefixOf (b :: bs) = (a == b && as.isPrefixOf bs) := rfl

theorem nil_isPrefixOf_eq (l : List Char) :
    List.isPrefixOf [] l = true := by
  cases l <;> rfl

theorem isPrefixOf_append_self :
    ∀ p l : List Char, p.isPrefixOf (p ++ l) = true := by
  intro p
  induction p with
  | nil => intro l; exact nil_isPrefixOf_eq l
  | cons a p ih =>
    intro l
    rw [List.cons_append, isPrefixOf_cons_cons, beq_self_eq_true,
      Bool.true_and, ih]

theorem has_chars_not_prefix_set (v : List Char) :
    has_key_chars.isPrefixOf (set_key_chars ++ v) = false := by
  show (('h' : Char) :: ['a', 's', '_']).isPrefixOf
    ('s' :: (['e', 't', '_'] ++ v)) = false
  rw [isPrefixOf_cons_cons,
    (by decide : (('h' : Char) == 's') = false), Bool.false_and]

theorem get_chars_not_prefix_set (v : List Char) :
    get_key_chars.isPrefixOf (set_key_chars ++ v) = false := by
  show (('g' : Char) :: ['e', 't', '_']).isPrefixOf
    ('s' :: (['e', 't', '_'] ++ v)) = false
  rw [isPrefixOf_cons_cons,
    (by decide : (('g' : Char) == 's') = false), Bool.false_and]

theorem has_chars_not_prefix_get (v : List Char) :
    has_key_chars.isPrefixOf (get_key_chars ++ v) = false := by
  show (('h' : Char) :: ['a', 's', '_']).isPrefixOf
    ('g' :: (['e', 't', '_'] ++ v)) = false
  rw [isPrefixOf_cons_cons,
    (by decide : (('h' : Char) == 'g') = false), Bool.false_and]

theorem key_append_length (p v : List Char) (hp : p.length = 4)
    (hv : v ≠ []) : 4 < (p ++ v).length := by
  have h0 : 0 < v.length := List.length_pos.mpr hv
  rw [List.length_append, hp]
  omega

/-- Reduction of the getattr hook on a key made of the set_ characters
followed by a nonempty variable name. -/
theorem runtime_getattr_set_key {α : Type}
    (builtins : List Char → Option (PyVal α)) (truthy : α → Bool)
    (v : List Char) (hv : v ≠ []) :
    runtime_getattr builtins truthy (set_key_chars ++ v) =
      Except.ok (RtAttr.set_method v) := by
  have hlen : 4 < (set_key_chars ++ v).length :=
    key_append_length set_key_chars v rfl hv
  have hdrop : (set_key_chars ++ v).drop 4 = v := rfl
  simp only [runtime_getattr, has_chars_not_prefix_set,
    get_chars_not_prefix_set, isPrefixOf_append_self, Bool.false_eq_true,
    if_false, if_true, if_pos hlen, hdrop, rt_attr_truthy]

/-- Reduction of the getattr hook on a key made of the get_ characters
followed by a nonempty variable name. -/
theorem runtime_getattr_get_key {α : Type}
    (builtins : List Char → Option (PyVal α)) (truthy : α → Bool)
    (v : List Char) (hv : v ≠ []) :
    runtime_getattr builtins truthy (get_key_chars ++ v) =
      Except.ok (RtAttr.get_method v) := by
  have hlen : 4 < (get_key_chars ++ v).length :=
    key_append_length get_key_chars v rfl hv
  have hdrop : (get_key_chars ++ v).drop 4 = v := rfl
  simp only [runtime_getattr, has_chars_not_prefix_get,
    isPrefixOf_append_self, Bool.false_eq_true,
    if_false, if_true, if_pos hlen, hdrop, rt_attr_truthy]

/-- Reduction of the getattr hook on a key made of the has_ characters
followed by a nonempty variable name. -/
theorem runtime_getattr_has_key {α : Type}
    (builtins : List Char → Option (PyVal α)) (truthy : α → Bool)
    (v : List Char) (hv : v ≠ []) :
    runtime_getattr builtins truthy (has_key_chars ++ v) =
      Except.ok (RtAttr.has_method v) := by
  have hlen : 4 < (has_key_chars ++ v).length :=
    key_append_length has_key_chars v rfl hv
  have hdrop : (has_key_chars ++ v).drop 4 = v := rfl
  simp only [runtime_getattr, isPrefixOf_append_self,
    if_true, if_pos hlen, hdrop, rt_attr_truthy]

/-! ## Claim theorems -/

/-- C1 counterexample: at a concrete exception raised by run, execute does
not propagate the exception unchanged; it returns normally with exit code 1
after logging the error and the formatted traceback. -/
theorem execute_passthrough_counterexample :
    execute (fun _ => "Traceback (most recent call last)")
        (Except.error ⟨"boom"⟩) ⟨0, []⟩ =
      Except.ok (1, ⟨1, ["An error occurred during execution: boom",
        "Traceback (most recent call last)"]⟩) ∧
    execute (fun _ => "Traceback (most recent call last)")
        (Except.error ⟨"boom"⟩) ⟨0, []⟩ ≠
      Except.error ⟨"boom"⟩ := by
  constructor
  · rfl
  · intro h
    exact Except.noConfusion h

/-- C1 amended: for every exception raised inside ShowBase.run during
Application.execute, execute catches the exception rather than propagating
it, writes the error message and the formatted traceback through the
notifier, sets exit_code to 1 and returns that exit code; when run returns
normally, execute returns the current exit_code. -/
theorem execute_error_handling (format_exc : PyExn → String) (e : PyExn)
    (s : ExecState) :
    execute format_exc (Except.error e) s =
      Except.ok (1,
        { exit_code := 1
          notify_log := s.notify_log ++
            ["An error occurred during execution: " ++ e.message,
             format_exc e] }) ∧
    execute format_exc (Except.ok ()) s = Except.ok (s.exit_code, s) :=
  ⟨rfl, rfl⟩

/-- C2: configure_log_file opens for appending a log file whose path joins
the app-log-directory PRC string, defaulting to the dot-slash-logs
directory on a platform whose separator is the slash, with the file name
built from the lower-cased executable name, an underscore, the local time
under the year-month-day_hour-minute-second format, a dot and the
app-log-ext PRC string defaulting to txt. -/
theorem configure_log_file_path_spec (w : LogWorld) (hsep : w.sep = "/") :
    (configure_log_file w).log_stream =
      PyStream.file_stream (configure_log_file w).log_file_path "a" ∧
    (configure_log_file w).log_file_path =
      os_path_join "/" (get_log_directory "/" w.prc)
        (py_lower w.executable_name ++ "_" ++ strftime_timestamp w.local_time
          ++ "." ++ get_prc_string w.prc "app-log-ext" "txt") ∧
    (w.prc.strings "app-log-directory" = Option.none →
      get_log_directory "/" w.prc = "./logs") ∧
    (w.prc.strings "app-log-ext" = Option.none →
      get_prc_string w.prc "app-log-ext" "txt" = "txt") := by
  refine ⟨rfl, ?_, ?_, ?_⟩
  · simp only [configure_log_file, hsep]
  · intro h
    unfold get_log_directory get_prc_string
    rw [h]
    decide
  · intro h
    unfold get_prc_string
    rw [h]
    rfl

/-- C2 witness: with an empty PRC configuration, executable name game, and
a concrete local time, the opened log file path evaluates to the timestamped
name under the default log directory. -/
theorem configure_log_file_path_spec_witness :
    (configure_log_file ⟨⟨fun _ => Option.none, fun _ => []⟩, "/", "game",
        ⟨2026, 10, 12, 11, 42, 5⟩, PyStream.stdout_stream,
        PyStream.stderr_stream⟩).log_file_path =
      "./logs/game_2026-10-12_11-42-05.txt" :=
  ((configure_log_file_path_spec ⟨⟨fun _ => Option.none, fun _ => []⟩, "/",
    "game", ⟨2026, 10, 12, 11, 42, 5⟩, PyStream.stdout_stream,
    PyStream.stderr_stream⟩ rfl).2.1).trans (by decide)

/-- C3: log_info with message m and name n calls log with n in the message
slot and m in the name slot, so the notifier category written to is named by
the caller message string m and the recorded info message is the caller name
string n; log_error, log_warn and log_debug behave the same way at their
levels. -/
theorem log_level_helpers_swap_arguments
    (has_attr : String → String → Bool) (m n : String) (hm : m ≠ "") :
    log_info has_attr m n = log has_attr n m "info" ∧
    (has_attr m "info" = true →
      log_info has_attr m n = Except.ok ⟨m, "info", n⟩) ∧
    (has_attr m "error" = true →
      log_error has_attr m n = Except.ok ⟨m, "error", n⟩) ∧
    (has_attr m "warn" = true →
      log_warn has_attr m n = Except.ok ⟨m, "warn", n⟩) ∧
    (has_attr m "debug" = true →
      log_debug has_attr m n = Except.ok ⟨m, "debug", n⟩) := by
  refine ⟨rfl, ?_, ?_, ?_, ?_⟩ <;> intro h <;>
    simp [log_info, log_error, log_warn, log_debug, log,
      get_notify_category, hm, h]

/-- C3 witness: at a category that has every level method, message game and
the default name global, log_info writes global as the info message of the
category named game. -/
theorem log_level_helpers_swap_arguments_witness :
    log_info (fun _ _ => true) "game" "global" =
      Except.ok ⟨"game", "info", "global"⟩ :=
  (log_level_helpers_swap_arguments (fun _ _ => true) "game" "global"
    (by decide)).2.1 rfl

/-- C4: configure_virtual_file_system mounts the assets directory exactly
when the application is not running as a built executable, otherwise mounts
each multifile of the vfs-multifile PRC list in list order, and in both
cases afterwards switches the Python file functions and IO functions over
to the virtual file system. -/
theorem configure_virtual_file_system_trace (e : RuntimeEnv)
    (prc : PrcConfig) :
    configure_virtual_file_system e prc =
      (if is_built_executable e = false then
        [VfsCall.mount_directory "." "assets"]
      else
        (get_prc_list prc "vfs-multifile").map (VfsCall.mount_multifile "."))
      ++ [VfsCall.switch_file_functions_to_vfs,
          VfsCall.switch_io_functions_to_vfs] ∧
    (VfsCall.mount_directory "." "assets" ∈
        configure_virtual_file_system e prc ↔
      is_built_executable e = false) := by
  cases hb : is_built_executable e with
  | false =>
    refine ⟨by simp [configure_virtual_file_system, hb], ?_⟩
    simp [configure_virtual_file_system, hb]
  | true =>
    refine ⟨by simp [configure_virtual_file_system, hb], ?_⟩
    simp [configure_virtual_file_system, hb]

/-- C5: is_production_build returns the logical negation of
is_developer_build, and is_developer_build is true exactly when builtins
carries a true dev flag or the interpreter is interactive, and the
application is not frozen. -/
theorem production_is_negation_of_developer (e : RuntimeEnv) :
    is_production_build e = !is_developer_build e ∧
    (is_developer_build e = true ↔
      ((e.dev__ = true ∨ is_interactive e = true) ∧ is_frozen e = false)) := by
  refine ⟨rfl, ?_⟩
  simp [is_developer_build, Bool.and_eq_true, Bool.or_eq_true,
    Bool.not_eq_true']

/-- C6: for a nonempty variable name, the runtime module getattr hook sends
the set_, get_ and has_ keys to the matching accessors of that variable;
setting a non-None value makes the getter return it and the has test true,
setting None or leaving the variable undefined makes the getter return None
and the has test false. -/
theorem runtime_accessor_roundtrip {α : Type}
    (builtins : List Char → Option (PyVal α)) (truthy : α → Bool)
    (s : ModuleState α) (v : List Char) (hv : v ≠ []) (x : α) :
    runtime_getattr builtins truthy (set_key_chars ++ v) =
      Except.ok (RtAttr.set_method v) ∧
    runtime_getattr builtins truthy (get_key_chars ++ v) =
      Except.ok (RtAttr.get_method v) ∧
    runtime_getattr builtins truthy (has_key_chars ++ v) =
      Except.ok (RtAttr.has_method v) ∧
    get_variable (set_variable s v (PyVal.val x)) v = PyVal.val x ∧
    has_variable (set_variable s v (PyVal.val x)) v = true ∧
    get_variable (set_variable s v PyVal.none) v = PyVal.none ∧
    has_variable (set_variable s v PyVal.none) v = false ∧
    (s v = Option.none →
      get_variable s v = PyVal.none ∧ has_variable s v = false) := by
  refine ⟨runtime_getattr_set_key builtins truthy v hv,
    runtime_getattr_get_key builtins truthy v hv,
    runtime_getattr_has_key builtins truthy v hv, ?_, ?_, ?_, ?_, ?_⟩
  · simp [get_variable, has_variable, set_variable]
  · simp [has_variable, set_variable]
  · simp [get_variable, has_variable, set_variable]
  · simp [has_variable, set_variable]
  · intro h
    exact ⟨by simp [get_variable, has_variable, h],
      by simp [has_variable, h]⟩

/-- C6 witness: the getattr hook at the concrete key made of set_ and the
one-character name x resolves to the setter of x. -/
theorem runtime_accessor_roundtrip_witness :
    runtime_getattr (fun _ => (Option.none : Option (PyVal Nat)))
        (fun _ => true) (set_key_chars ++ ['x']) =
      Except.ok (RtAttr.set_method ['x']) :=
  (runtime_accessor_roundtrip (fun _ => (Option.none : Option (PyVal Nat)))
    (fun _ => true) (fun _ => Option.none) ['x'] (by decide) 5).1

/-- C7: for a dotted object path containing at least one dot,
create_class_entry returns the last dot-separated segment, the full path
and the meta value, and create_singleton_entry returns the path with its
last segment and final dot removed, the last segment and the meta value. -/
theorem create_entry_split_spec {μ : Type} (p : List Char) (m : μ)
    (hp : '.' ∈ p) :
    ∃ path class_name : List Char,
      p = path ++ '.' :: class_name ∧
      '.' ∉ class_name ∧
      create_class_entry p m = (class_name, p, m) ∧
      create_singleton_entry p m = (path, class_name, m) := by
  have hsnd : (splitAux '.' p).2 ≠ [] := splitAux_snd_ne_nil '.' p hp
  have hne : splitOnSep '.' p ≠ [] := List.cons_ne_nil _ _
  have h1 : (splitOnSep '.' p).dropLast ≠ [] :=
    dropLast_cons_ne_nil _ _ hsnd
  refine ⟨joinSep '.' (splitOnSep '.' p).dropLast,
    py_last [] (splitOnSep '.' p), ?_, ?_, rfl, rfl⟩
  · calc p = joinSep '.' (splitOnSep '.' p) :=
        (joinSep_splitOnSep '.' p).symm
      _ = joinSep '.' ((splitOnSep '.' p).dropLast ++
            [py_last [] (splitOnSep '.' p)]) := by
        rw [dropLast_append_py_last [] _ hne]
      _ = joinSep '.' (splitOnSep '.' p).dropLast ++
            '.' :: py_last [] (splitOnSep '.' p) :=
        joinSep_append_singleton '.' _ _ h1
  · exact sep_not_mem_of_mem_splitOnSep '.' p _
      (py_last_mem [] _ hne)

/-- C7 witness: the entry constructors at the concrete dotted path a.b with
a unit meta value. -/
theorem create_entry_split_spec_witness :
    ∃ path class_name : List Char,
      ['a', '.', 'b'] = path ++ '.' :: class_name ∧
      '.' ∉ class_name ∧
      create_class_entry ['a', '.', 'b'] (0 : Nat) =
        (class_name, ['a', '.', 'b'], 0) ∧
      create_singleton_entry ['a', '.', 'b'] (0 : Nat) =
        (path, class_name, 0) :=
  create_entry_split_spec ['a', '.', 'b'] 0 (by decide)

/-- C8: set_exit_callback raises AssertionError exactly when the callback is
None or not callable, and otherwise stores the callback in exitFunc leaving
the rest of the state unchanged. -/
theorem set_exit_callback_spec {ρ : Type} (func : PyVal PyObject)
    (s : ShowBaseState ρ) :
    set_exit_callback func s =
      (if func = PyVal.none ∨ callable_check func = false then
        Except.error PyError.assertionError
      else
        Except.ok { s with exitFunc := func }) := by
  cases func with
  | none => simp [set_exit_callback]
  | val o =>
    cases ho : o.callable <;>
      simp [set_exit_callback, callable_check, ho]

/-- C9: configure_log_file replaces sys.stdout and sys.stderr by handlers
wrapping the previous streams around the opened log stream, and the write
method of each handler writes the message to the log stream and to the
original stream and flushes both. -/
theorem log_handlers_tee_streams (w : LogWorld) (m : String) :
    (configure_log_file w).new_stdout =
      ⟨w.sys_stdout, (configure_log_file w).log_stream⟩ ∧
    (configure_log_file w).new_stderr =
      ⟨w.sys_stderr, (configure_log_file w).log_stream⟩ ∧
    handler_write (configure_log_file w).new_stdout m =
      [StreamAction.write_to (configure_log_file w).log_stream m,
       StreamAction.flush (configure_log_file w).log_stream,
       StreamAction.write_to w.sys_stdout m,
       StreamAction.flush w.sys_stdout] ∧
    handler_write (configure_log_file w).new_stderr m =
      [StreamAction.write_to (configure_log_file w).log_stream m,
       StreamAction.flush (configure_log_file w).log_stream,
       StreamAction.write_to w.sys_stderr m,
       StreamAction.flush w.sys_stderr] :=
  ⟨rfl, rfl, rfl, rfl⟩

end PandaToolbox
